import Mathlib

/-!
Shallow embedding of the NonEuclidean rendering substrate (crate `src`):
the timeline-tracker / deferred-destruction machinery of `src/device.rs`,
the buffer resource of `src/buffer.rs`, and the frame loop and resize logic
of `src/swapchain.rs`.  Vulkan object handles are modelled as natural
numbers, external Vulkan/driver calls as explicit oracle parameters, and
panics as `Option`/`none`.
-/

set_option linter.unusedVariables false
set_option linter.unnecessarySeqFocus false

namespace NonEuclidean

/-- An allocation handle returned by the external `gpu_allocator` crate
(`gpu_allocator::vulkan::Allocation`): device memory handle, offset, size,
and the optional host-mapped pointer. -/
structure Allocation where
  memory : Nat
  offset : Nat
  size : Nat
  mapped_ptr : Option Nat
deriving DecidableEq, Repr

/-- Resources that can be queued for deferred destruction
(src/device.rs, `enum ResourceToDestroy`).  A buffer carries its
allocation so the allocator can free it on destruction. -/
inductive ResourceToDestroy where
  | ImageView (image_view : Nat)
  | Semaphore (semaphore : Nat)
  | Fence (fence : Nat)
  | Buffer (buffer : Nat) (allocation : Allocation)
deriving DecidableEq, Repr

/-- Core loop of Rust's `binary_search_by_key` over the counter keys of the
pending-destruction queue (the `VecDeque` is modelled by its element
sequence).  Mirrors the standard-library search: `mid = left + size / 2`
with `size = right - left`; returns `Except.ok mid` when the key at `mid`
equals `c` and `Except.error left` with the insertion point otherwise.
The loop is embedded with a structural `fuel` bound on the iteration
count; each iteration shrinks `right - left` by at least one, so whenever
`right - left ≤ fuel` holds initially (as at the call site, which passes
the list length) the `fuel = 0` cutoff coincides with the loop's own
`left < right` exit and the embedding equals the unbounded loop. -/
def binarySearchGo (keys : List Nat) (c : Nat) : Nat → Nat → Nat → Except Nat Nat
  | 0, left, _right => Except.error left
  | fuel + 1, left, right =>
    if left < right then
      let mid := left + (right - left) / 2
      let k := keys.getD mid 0
      if k < c then binarySearchGo keys c fuel (mid + 1) right
      else if c < k then binarySearchGo keys c fuel left mid
      else Except.ok mid
    else Except.error left

/-- Destructuring `let (Ok(index) | Err(index)) = ...` from
`Device::schedule_destroy_resource`: either way the payload index is used. -/
def bsIndex : Except Nat Nat → Nat
  | Except.ok i => i
  | Except.error i => i

/-- The call `resources.binary_search_by_key(&counter, |&(counter, _)| counter)`
(src/device.rs line 267): search the whole queue, with fuel equal to its
length (an upper bound on the loop's iterations, see `binarySearchGo`). -/
def binarySearchByKey (q : List (Nat × ResourceToDestroy)) (c : Nat) : Except Nat Nat :=
  binarySearchGo (q.map Prod.fst) c q.length 0 q.length

/-- Queue mutation of `Device::schedule_destroy_resource`
(src/device.rs lines 265-268): binary-search the pending queue for
`counter` and insert the new entry at the returned index
(`VecDeque::insert` places it before the suffix starting there). -/
def scheduleDestroyInsert (q : List (Nat × ResourceToDestroy)) (counter : Nat)
    (resource : ResourceToDestroy) : List (Nat × ResourceToDestroy) :=
  let index := bsIndex (binarySearchByKey q counter)
  q.take index ++ (counter, resource) :: q.drop index

/-- Full `Device::schedule_destroy_resource` (src/device.rs lines 262-269),
including its `debug_assert!(counter <= self.current_timeline_counter())`.
`debug_assertions` is the build's `cfg!(debug_assertions)` flag; `none`
models the assertion panic. -/
def schedule_destroy_resource (debug_assertions : Bool) (current_timeline_counter : Nat)
    (counter : Nat) (resource : ResourceToDestroy)
    (q : List (Nat × ResourceToDestroy)) : Option (List (Nat × ResourceToDestroy)) :=
  if debug_assertions ∧ ¬ counter ≤ current_timeline_counter then none
  else some (scheduleDestroyInsert q counter resource)

/-- The `while let Some(..) = resources.pop_front_if(..)` reap loop of
`Device::destroy_resources` (src/device.rs lines 278-297): pop entries from
the front while their required counter is at most the completed
`current_counter`, destroying each popped entry.  Returns the popped
entries in destruction order together with the remaining queue. -/
def destroyResourcesLoop (q : List (Nat × ResourceToDestroy)) (current_counter : Nat) :
    List (Nat × ResourceToDestroy) × List (Nat × ResourceToDestroy) :=
  match q with
  | [] => ([], [])
  | e :: rest =>
    if e.1 ≤ current_counter then
      let p := destroyResourcesLoop rest current_counter
      (e :: p.1, p.2)
    else ([], e :: rest)

/-- Device state relevant to the timeline tracker and the deferred
destruction queue (`Device` in src/device.rs): the atomic
`timeline_counter`, the `resources_to_destroy` queue, and an observation
log `destroyed` recording, in order, every resource physically destroyed
so far. -/
structure DeviceState where
  timeline_counter : Nat
  resources_to_destroy : List (Nat × ResourceToDestroy)
  destroyed : List ResourceToDestroy
deriving DecidableEq, Repr

/-- `Device::destroy_resources` (src/device.rs lines 271-298): reap against
`current_counter`, the GPU-visible completed value read from the timeline
semaphore.  Reaped entries are removed from the queue and appended to the
destruction log. -/
def destroy_resources (d : DeviceState) (current_counter : Nat) : DeviceState :=
  let p := destroyResourcesLoop d.resources_to_destroy current_counter
  { d with resources_to_destroy := p.2, destroyed := d.destroyed ++ p.1.map Prod.snd }

/-- Sortedness of the pending-destruction queue: required counters are
non-decreasing from front to back. -/
def sortedByCounter (q : List (Nat × ResourceToDestroy)) : Prop :=
  List.Pairwise (fun a b => a.1 ≤ b.1) q

instance (q : List (Nat × ResourceToDestroy)) : Decidable (sortedByCounter q) :=
  inferInstanceAs (Decidable (List.Pairwise _ q))

/-- Memory placement hint (`gpu_allocator::MemoryLocation`). -/
inductive MemoryLocation where
  | Unknown
  | GpuOnly
  | CpuToGpu
  | GpuToCpu
deriving DecidableEq, Repr

/-- The `vk::BufferUsageFlags::SHADER_DEVICE_ADDRESS` bit (0x00020000). -/
def SHADER_DEVICE_ADDRESS : Nat := 0x00020000

/-- The `vk::BufferCreateInfo` built by `Buffer::new` (sharing mode is the
constant `EXCLUSIVE` and is omitted). -/
structure BufferCreateInfo where
  size : Nat
  usage : Nat
deriving DecidableEq, Repr

/-- The `gpu_allocator::vulkan::AllocationCreateDesc` built by `Buffer::new`;
`dedicated` records whether `AllocationScheme::DedicatedBuffer` was chosen
instead of `GpuAllocatorManaged`. -/
structure AllocationCreateDesc where
  name : String
  requirements : Nat
  location : MemoryLocation
  linear : Bool
  dedicated : Bool
deriving DecidableEq, Repr

/-- External collaborators reached by `Buffer::new`: `vkCreateBuffer`
(returning a fresh buffer handle), `vkGetBufferMemoryRequirements`
(requirements modelled as an opaque value), and the external allocator's
`allocate`. -/
structure GpuEnv where
  create_buffer : BufferCreateInfo → Nat
  get_buffer_memory_requirements : Nat → Nat
  allocate : AllocationCreateDesc → Allocation

/-- `Buffer` (src/buffer.rs): the stored Vulkan buffer handle and its
allocation.  The struct stores no usage flags. -/
structure Buffer where
  buffer : Nat
  allocation : Allocation
deriving DecidableEq, Repr

/-- `Buffer::new` (src/buffer.rs lines 17-65): create the buffer with the
requested size and usage, allocate memory for it (dedicated or pooled), and
bind (binding has no modelled state). -/
def Buffer.new (env : GpuEnv) (name : String) (location : MemoryLocation) (size : Nat)
    (usage : Nat) (dedicated_allocation : Bool) : Buffer :=
  let buffer_create_info : BufferCreateInfo := { size := size, usage := usage }
  let buffer := env.create_buffer buffer_create_info
  let requirements := env.get_buffer_memory_requirements buffer
  let allocation := env.allocate
    { name := name, requirements := requirements, location := location,
      linear := true, dedicated := dedicated_allocation }
  { buffer := buffer, allocation := allocation }

/-- `Buffer::device_address` (src/buffer.rs lines 95-100): build a
`BufferDeviceAddressInfo` for the stored handle and forward it to
`vkGetBufferDeviceAddress`, modelled by the oracle
`get_buffer_device_address`.  The source function is `unsafe` and performs
no check of any kind. -/
def Buffer.device_address (b : Buffer) (get_buffer_device_address : Nat → Nat) : Nat :=
  get_buffer_device_address b.buffer

/-- Error vocabulary of the specification's device-address accessor. -/
inductive DeviceAddressError where
  | missingShaderDeviceAddressUsage
deriving DecidableEq, Repr

/-- Outcome of the source accessor expressed in the specification's
error-reporting vocabulary: the source function returns a plain address on
every call, so the outcome is always `ok`. -/
def Buffer.device_address_outcome (b : Buffer) (get_buffer_device_address : Nat → Nat) :
    Except DeviceAddressError Nat :=
  Except.ok (b.device_address get_buffer_device_address)

/-- Modelled from the spec: "Device-address accessor fails (reports an
error rather than returning a bogus value) if the buffer was not created
with the address-exposing usage flag."  The accessor the specification
describes, for comparison with the source's; `usage` is the flag set the
buffer was created with. -/
def device_address_spec (usage : Nat) (b : Buffer)
    (get_buffer_device_address : Nat → Nat) : Except DeviceAddressError Nat :=
  if usage &&& SHADER_DEVICE_ADDRESS ≠ 0 then
    Except.ok (b.device_address get_buffer_device_address)
  else
    Except.error DeviceAddressError.missingShaderDeviceAddressUsage

/-- `impl Drop for Buffer` (src/buffer.rs lines 119-128): hand the buffer
and its allocation to `schedule_destroy_resource` with the counter read
from `current_timeline_counter()` at the moment of release.  `none` models
a `debug_assert!` panic inside the scheduling call. -/
def Buffer.drop (b : Buffer) (debug_assertions : Bool) (d : DeviceState) :
    Option DeviceState :=
  (schedule_destroy_resource debug_assertions d.timeline_counter d.timeline_counter
      (ResourceToDestroy.Buffer b.buffer b.allocation) d.resources_to_destroy).map
    fun q => { d with resources_to_destroy := q }

/-- `FRAMES_IN_FLIGHT_COUNT` (src/swapchain.rs line 6). -/
def FRAMES_IN_FLIGHT_COUNT : Nat := 2

/-- The `vk::PipelineStageFlags2::COLOR_ATTACHMENT_OUTPUT` bit. -/
def COLOR_ATTACHMENT_OUTPUT : Nat := 0x400

/-- The `vk::PipelineStageFlags2::ALL_GRAPHICS` bit. -/
def ALL_GRAPHICS : Nat := 0x8000

/-- `vk::SemaphoreSubmitInfo`: semaphore handle, timeline value (0, the
default, for binary semaphores), and stage mask. -/
structure SemaphoreSubmitInfo where
  semaphore : Nat
  value : Nat
  stage_mask : Nat
deriving DecidableEq, Repr

/-- `RenderSync` (src/swapchain.rs lines 467-470): the render callback's
optional extra wait and signal requests — one `Option` each, not lists.
Field names follow the source spelling. -/
structure RenderSync where
  wait_sempahore_info : Option SemaphoreSubmitInfo
  signal_sempahore_info : Option SemaphoreSubmitInfo
deriving DecidableEq, Repr

/-- `RenderResult` (src/swapchain.rs lines 472-477). -/
inductive RenderResult where
  | NotReady
  | OutOfDate
  | Suboptimal
  | Success
deriving DecidableEq, Repr

/-- One `vk::SubmitInfo2` handed to `queue_submit2`, together with the
fence passed alongside it. -/
structure SubmitInfo2 where
  wait_semaphore_infos : List SemaphoreSubmitInfo
  command_buffer : Nat
  signal_semaphore_infos : List SemaphoreSubmitInfo
  fence : Nat
deriving DecidableEq, Repr

/-- One `vk::PresentInfoKHR` handed to `queue_present`, with its
per-present completion fence (`SwapchainPresentFenceInfoEXT`). -/
structure PresentInfo where
  wait_semaphore : Nat
  swapchain : Nat
  image_index : Nat
  present_fence : Nat
deriving DecidableEq, Repr

/-- State of `Swapchain` (src/swapchain.rs) together with the device-side
state it drives.  Handle fields mirror the struct fields of the source
(slot arrays are length-`FRAMES_IN_FLIGHT_COUNT` lists, indexed with a
`false`/`0` out-of-range default that well-formed states never hit); the
`..._signaled` fields model the GPU-visible status of each slot's fences;
`timeline_semaphore` and `timeline_counter` are the owning `Device`'s;
`submissions`, `presents` and `callback_slots` are observation logs of the
calls made to `queue_submit2`, to `queue_present`, and to the caller's
render callback (the slot index each invocation received);
`next_handle` is the supply of fresh Vulkan handles consumed when the
swapchain and its image views are recreated. -/
structure Sc where
  width : Nat
  height : Nat
  swapchain : Nat
  images : List Nat
  image_views : List Nat
  frame_counter : Nat
  aquired_image : List Nat
  command_buffers : List Nat
  render_finished : List Nat
  render_finished_fences : List Nat
  finished_presenting : List Nat
  render_finished_fences_signaled : List Bool
  finished_presenting_signaled : List Bool
  timeline_semaphore : Nat
  timeline_counter : Nat
  next_handle : Nat
  submissions : List SubmitInfo2
  presents : List PresentInfo
  callback_slots : List Nat
deriving DecidableEq, Repr

/-- Outcome of `acquire_next_image` with zero timeout:
`Ok((image_index, suboptimal))`, `Err(TIMEOUT | NOT_READY)`, or
`Err(ERROR_OUT_OF_DATE_KHR)`. -/
inductive AcquireResult where
  | success (image_index : Nat) (suboptimal : Bool)
  | notReady
  | outOfDate
deriving DecidableEq, Repr

/-- Outcome of `queue_present`: `Ok(suboptimal)` or
`Err(ERROR_OUT_OF_DATE_KHR)`. -/
inductive PresentResult where
  | success (suboptimal : Bool)
  | outOfDate
deriving DecidableEq, Repr

/-- External outcomes of one `try_next_frame` call: what the presentation
engine answers to acquire and present, and the `RenderSync` the caller's
render callback hands back. -/
structure FrameEnv where
  acquire : AcquireResult
  present : PresentResult
  render : RenderSync
deriving DecidableEq, Repr

/-- `Swapchain::try_next_frame` (src/swapchain.rs lines 295-464).
Zero-timeout polls of the current slot's two fences return `NotReady` on
timeout; acquire failure returns `NotReady`/`OutOfDate`; after a
successful acquire the frame counter advances modulo
`FRAMES_IN_FLIGHT_COUNT`, the callback runs with the old slot index,
the slot's fences are reset, the submission is built
(wait set: image-acquired semaphore plus the optional caller wait;
signal set: render-finished semaphore, the timeline semaphore at
`signal_timeline_submit_info`'s value `fetch_add(1) + 1`, plus the
optional caller signal) and queued, and presentation runs with the
per-present fence.  Command-buffer recording itself is not modelled. -/
def try_next_frame (env : FrameEnv) (s : Sc) : RenderResult × Sc :=
  let frame_index := s.frame_counter
  if ¬ s.render_finished_fences_signaled.getD frame_index false then
    (RenderResult.NotReady, s)
  else if ¬ s.finished_presenting_signaled.getD frame_index false then
    (RenderResult.NotReady, s)
  else
    match env.acquire with
    | AcquireResult.notReady => (RenderResult.NotReady, s)
    | AcquireResult.outOfDate => (RenderResult.OutOfDate, s)
    | AcquireResult.success image_index suboptimal =>
      let s1 := { s with frame_counter := (s.frame_counter + 1) % FRAMES_IN_FLIGHT_COUNT }
      let user := env.render
      let s2 := { s1 with callback_slots := s1.callback_slots ++ [frame_index] }
      let s3 := { s2 with render_finished_fences_signaled :=
        s2.render_finished_fences_signaled.set frame_index false }
      let acquire_wait_info : SemaphoreSubmitInfo :=
        { semaphore := s3.aquired_image.getD frame_index 0, value := 0,
          stage_mask := COLOR_ATTACHMENT_OUTPUT }
      let render_finished_signal_info : SemaphoreSubmitInfo :=
        { semaphore := s3.render_finished.getD frame_index 0, value := 0,
          stage_mask := ALL_GRAPHICS }
      let render_finished_timeline_signal_info : SemaphoreSubmitInfo :=
        { semaphore := s3.timeline_semaphore, value := s3.timeline_counter + 1,
          stage_mask := 0 }
      let s4 := { s3 with timeline_counter := s3.timeline_counter + 1 }
      let wait_infos := match user.wait_sempahore_info with
        | some user_wait_info => [acquire_wait_info, user_wait_info]
        | none => [acquire_wait_info]
      let signal_infos := match user.signal_sempahore_info with
        | some user_signal_info =>
          [render_finished_signal_info, render_finished_timeline_signal_info,
            user_signal_info]
        | none => [render_finished_signal_info, render_finished_timeline_signal_info]
      let submission : SubmitInfo2 :=
        { wait_semaphore_infos := wait_infos,
          command_buffer := s4.command_buffers.getD frame_index 0,
          signal_semaphore_infos := signal_infos,
          fence := s4.render_finished_fences.getD frame_index 0 }
      let s5 := { s4 with submissions := s4.submissions ++ [submission] }
      let s6 := { s5 with finished_presenting_signaled :=
        s5.finished_presenting_signaled.set frame_index false }
      let present_info : PresentInfo :=
        { wait_semaphore := s6.render_finished.getD frame_index 0,
          swapchain := s6.swapchain, image_index := image_index,
          present_fence := s6.finished_presenting.getD frame_index 0 }
      let s7 := { s6 with presents := s6.presents ++ [present_info] }
      match env.present with
      | PresentResult.outOfDate => (RenderResult.OutOfDate, s7)
      | PresentResult.success present_suboptimal =>
        if suboptimal || present_suboptimal then (RenderResult.Suboptimal, s7)
        else (RenderResult.Success, s7)

/-- Surface capability query result
(`vk::SurfaceCapabilitiesKHR`, the min/max image extent fields). -/
structure SurfaceCapabilities where
  min_image_extent_width : Nat
  min_image_extent_height : Nat
  max_image_extent_width : Nat
  max_image_extent_height : Nat
deriving DecidableEq, Repr

/-- Rust `u32::clamp(self, min, max)`: panics (modelled `none`) when
`min > max`, otherwise `min` below the range, `max` above it, `self`
inside it. -/
def clampU32 (x lo hi : Nat) : Option Nat :=
  if hi < lo then none
  else some (if x < lo then lo else if hi < x then hi else x)

/-- `Swapchain::resize` (src/swapchain.rs lines 215-293): no-op when the
request is zero in either dimension or equals the stored extent; otherwise
wait (unbounded) for every slot's fences — modelled by the wait's
postcondition, both fence arrays signaled — query the surface
capabilities (`caps`), clamp the request to them, recreate the swapchain
and only the per-image views (the new image set `new_images` comes from
`get_swapchain_images`; fresh handles are drawn from `next_handle`), and
store the clamped extent.  `none` models a panic inside `clamp`. -/
def resize (caps : SurfaceCapabilities) (new_images : List Nat) (s : Sc)
    (width height : Nat) : Option Sc :=
  if width = 0 ∨ height = 0 ∨ (width = s.width ∧ height = s.height) then some s
  else
    let s1 := { s with
      render_finished_fences_signaled := List.replicate FRAMES_IN_FLIGHT_COUNT true,
      finished_presenting_signaled := List.replicate FRAMES_IN_FLIGHT_COUNT true }
    match clampU32 width caps.min_image_extent_width caps.max_image_extent_width,
        clampU32 height caps.min_image_extent_height caps.max_image_extent_height with
    | some w, some h =>
      some { s1 with
        swapchain := s1.next_handle,
        width := w, height := h,
        images := new_images,
        image_views := (List.range new_images.length).map fun i => s1.next_handle + 1 + i,
        next_handle := s1.next_handle + 1 + new_images.length }
    | _, _ => none

/-- GPU and presentation-engine progress between frames: all pending slot
fences become signaled (the submissions completed and the presentation
engine finished with the presents). -/
def gpuCompleteAll (s : Sc) : Sc :=
  { s with
    render_finished_fences_signaled := List.replicate FRAMES_IN_FLIGHT_COUNT true,
    finished_presenting_signaled := List.replicate FRAMES_IN_FLIGHT_COUNT true }

/-- A fresh swapchain state as produced by `Swapchain::new`: slot 0
current, both slots' fences created in the `SIGNALED` state, timeline
counter 0, empty observation logs; concrete distinct numbers stand for the
handles created at startup, and the extent is the surface minimum (1, 1). -/
def freshSc : Sc where
  width := 1
  height := 1
  swapchain := 11
  images := [20, 21, 22]
  image_views := [30, 31, 32]
  frame_counter := 0
  aquired_image := [1, 2]
  command_buffers := [3, 4]
  render_finished := [5, 6]
  render_finished_fences := [7, 8]
  finished_presenting := [9, 10]
  render_finished_fences_signaled := [true, true]
  finished_presenting_signaled := [true, true]
  timeline_semaphore := 100
  timeline_counter := 0
  next_handle := 200
  submissions := []
  presents := []
  callback_slots := []

/-- Environment of the all-ready scenario: acquire succeeds with image 0
and no suboptimal flag, presentation succeeds without the suboptimal flag,
and the render callback requests no extra synchronization. -/
def readyEnv : FrameEnv where
  acquire := AcquireResult.success 0 false
  present := PresentResult.success false
  render := { wait_sempahore_info := none, signal_sempahore_info := none }

/-- Environment in which no presentable image is acquirable with zero
timeout. -/
def notReadyEnv : FrameEnv where
  acquire := AcquireResult.notReady
  present := PresentResult.success false
  render := { wait_sempahore_info := none, signal_sempahore_info := none }

/-- State after `n` frames of the all-ready scenario: each frame is a
`try_next_frame` call followed by the GPU completing that frame's work
before the next call. -/
def scState : Nat → Sc
  | 0 => freshSc
  | n + 1 => gpuCompleteAll (try_next_frame readyEnv (scState n)).2

/-- Surface capabilities used in the concrete resize scenarios: minimum
extent 1×1, maximum extent 100×100. -/
def cexCaps : SurfaceCapabilities where
  min_image_extent_width := 1
  min_image_extent_height := 1
  max_image_extent_width := 100
  max_image_extent_height := 100

/-- State after a first `resize(200, 50)` on the fresh swapchain under
`cexCaps` (the request exceeds the maximum width, so the stored width is
the clamped 100). -/
def s1resized : Sc := (resize cexCaps [20, 21, 22] freshSc 200 50).getD freshSc

/-- State after a first in-bounds `resize(50, 60)` on the fresh swapchain
under `cexCaps`. -/
def s1within : Sc := (resize cexCaps [20, 21, 22] freshSc 50 60).getD freshSc

/-- Concrete environment for the buffer scenarios: `vkCreateBuffer` returns
handle 42, requirements are opaque 256, the allocator returns a fixed
unmapped allocation. -/
def cexGpuEnv : GpuEnv where
  create_buffer := fun _ => 42
  get_buffer_memory_requirements := fun _ => 256
  allocate := fun _ => { memory := 7, offset := 0, size := 256, mapped_ptr := none }

/-- A buffer created with usage flags 0 — in particular without
`SHADER_DEVICE_ADDRESS`. -/
def cexBufferNoFlag : Buffer :=
  Buffer.new cexGpuEnv "cex" MemoryLocation.GpuOnly 256 0 false

/-- A concrete driver-side address table: every buffer handle maps to the
arbitrary value 2989 (a garbage address from the caller's point of view). -/
def cexAddressTable : Nat → Nat := fun _ => 2989

/-- The submission recorded by one all-ready `try_next_frame` call on the
fresh swapchain. -/
def scenarioSubmission : SubmitInfo2 :=
  ((try_next_frame readyEnv freshSc).2.submissions).getD 0
    { wait_semaphore_infos := [], command_buffer := 0,
      signal_semaphore_infos := [], fence := 0 }

/-- The pending queue produced by a sequence of `schedule_destroy_resource`
calls (their queue mutations) starting from the empty queue. -/
def queueOf (ops : List (Nat × ResourceToDestroy)) : List (Nat × ResourceToDestroy) :=
  ops.foldl (fun acc e => scheduleDestroyInsert acc e.1 e.2) []

theorem binarySearchGo_base {keys : List Nat} {c : Nat} (fuel : Nat) {left right : Nat}
    (h : ¬ left < right) :
    binarySearchGo keys c fuel left right = Except.error left := by
  cases fuel with
  | zero => rfl
  | succ fuel => rw [binarySearchGo, if_neg h]

theorem binarySearchGo_step_lt {keys : List Nat} {c : Nat} (fuel : Nat) {left right : Nat}
    (h : left < right) (hk : keys.getD (left + (right - left) / 2) 0 < c) :
    binarySearchGo keys c (fuel + 1) left right =
      binarySearchGo keys c fuel (left + (right - left) / 2 + 1) right := by
  rw [binarySearchGo, if_pos h]
  simp only [if_pos hk]

theorem binarySearchGo_step_gt {keys : List Nat} {c : Nat} (fuel : Nat) {left right : Nat}
    (h : left < right)
    (hk1 : ¬ keys.getD (left + (right - left) / 2) 0 < c)
    (hk2 : c < keys.getD (left + (right - left) / 2) 0) :
    binarySearchGo keys c (fuel + 1) left right =
      binarySearchGo keys c fuel left (left + (right - left) / 2) := by
  rw [binarySearchGo, if_pos h]
  simp only [if_neg hk1, if_pos hk2]

theorem binarySearchGo_step_eq {keys : List Nat} {c : Nat} (fuel : Nat) {left right : Nat}
    (h : left < right)
    (hk1 : ¬ keys.getD (left + (right - left) / 2) 0 < c)
    (hk2 : ¬ c < keys.getD (left + (right - left) / 2) 0) :
    binarySearchGo keys c (fuel + 1) left right =
      Except.ok (left + (right - left) / 2) := by
  rw [binarySearchGo, if_pos h]
  simp only [if_neg hk1, if_neg hk2]

theorem binarySearchGo_bounds (keys : List Nat) (c : Nat)
    (hsort : ∀ i j, i ≤ j → j < keys.length → keys.getD i 0 ≤ keys.getD j 0) :
    ∀ (fuel left right : Nat), right - left ≤ fuel → left ≤ right →
      right ≤ keys.length →
      (∀ j, j < left → keys.getD j 0 ≤ c) →
      (∀ j, right ≤ j → j < keys.length → c ≤ keys.getD j 0) →
      bsIndex (binarySearchGo keys c fuel left right) ≤ keys.length ∧
      (∀ j, j < bsIndex (binarySearchGo keys c fuel left right) → keys.getD j 0 ≤ c) ∧
      (∀ j, bsIndex (binarySearchGo keys c fuel left right) ≤ j → j < keys.length →
        c ≤ keys.getD j 0) := by
  intro fuel
  induction fuel with
  | zero =>
    intro left right hn hlr hrl hl hr
    have h : ¬ left < right := by omega
    rw [binarySearchGo_base 0 h]
    simp only [bsIndex]
    exact ⟨by omega, hl, fun j hj hjl => hr j (by omega) hjl⟩
  | succ fuel ih =>
    intro left right hn hlr hrl hl hr
    by_cases h : left < right
    · have hmlt : left + (right - left) / 2 < right := by omega
      have hmln : left + (right - left) / 2 < keys.length := by omega
      by_cases hk : keys.getD (left + (right - left) / 2) 0 < c
      · rw [binarySearchGo_step_lt fuel h hk]
        refine ih (left + (right - left) / 2 + 1) right (by omega) (by omega) hrl ?_ hr
        intro j hj
        exact le_trans (hsort j (left + (right - left) / 2) (by omega) hmln) (le_of_lt hk)
      · by_cases hk2 : c < keys.getD (left + (right - left) / 2) 0
        · rw [binarySearchGo_step_gt fuel h hk hk2]
          refine ih left (left + (right - left) / 2) (by omega) (by omega) (by omega) hl ?_
          intro j hj hjl
          exact le_trans (le_of_lt hk2) (hsort (left + (right - left) / 2) j hj hjl)
        · rw [binarySearchGo_step_eq fuel h hk hk2]
          simp only [bsIndex]
          have hkc : keys.getD (left + (right - left) / 2) 0 = c := by omega
          refine ⟨by omega, ?_, ?_⟩
          · intro j hj
            exact hkc ▸ hsort j (left + (right - left) / 2) (by omega) hmln
          · intro j hj hjl
            exact hkc ▸ hsort (left + (right - left) / 2) j hj hjl
    · rw [binarySearchGo_base (fuel + 1) h]
      simp only [bsIndex]
      exact ⟨by omega, hl, fun j hj hjl => hr j (by omega) hjl⟩

theorem keysGetD (q : List (Nat × ResourceToDestroy)) (i : Nat) (h : i < q.length) :
    (q.map Prod.fst).getD i 0 = (q.get ⟨i, h⟩).1 := by
  simp [List.getD_eq_getElem?_getD, List.getElem?_map, List.getElem?_eq_getElem h]

theorem binarySearchByKey_bounds (q : List (Nat × ResourceToDestroy)) (c : Nat)
    (hq : sortedByCounter q) :
    bsIndex (binarySearchByKey q c) ≤ q.length ∧
    (∀ j, ∀ hj : j < q.length, j < bsIndex (binarySearchByKey q c) →
      (q.get ⟨j, hj⟩).1 ≤ c) ∧
    (∀ j, ∀ hj : j < q.length, bsIndex (binarySearchByKey q c) ≤ j →
      c ≤ (q.get ⟨j, hj⟩).1) := by
  have hsort : ∀ i j, i ≤ j → j < (q.map Prod.fst).length →
      (q.map Prod.fst).getD i 0 ≤ (q.map Prod.fst).getD j 0 := by
    intro i j hij hjl
    rw [List.length_map] at hjl
    rcases Nat.lt_or_ge i j with hlt | hge
    · rw [keysGetD q i (by omega), keysGetD q j hjl]
      have := (List.pairwise_iff_getElem.mp hq) i j (by omega) hjl hlt
      simpa using this
    · have : i = j := by omega
      subst this
      exact le_refl _
  have hlen : (q.map Prod.fst).length = q.length := List.length_map _ _
  have := binarySearchGo_bounds (q.map Prod.fst) c hsort q.length 0 q.length
    (by omega) (by omega) (by omega)
    (fun j hj => absurd hj (Nat.not_lt_zero j))
    (fun j hj hjl => absurd hjl (by omega))
  rw [binarySearchByKey]
  obtain ⟨h1, h2, h3⟩ := this
  refine ⟨by omega, ?_, ?_⟩
  · intro j hj hji
    have := h2 j hji
    rwa [keysGetD q j hj] at this
  · intro j hj hji
    have := h3 j hji (by omega)
    rwa [keysGetD q j hj] at this

theorem scheduleDestroyInsert_sorted (q : List (Nat × ResourceToDestroy))
    (hq : sortedByCounter q) (c : Nat) (r : ResourceToDestroy) :
    sortedByCounter (scheduleDestroyInsert q c r) := by
  obtain ⟨hle, hbef, haft⟩ := binarySearchByKey_bounds q c hq
  rw [scheduleDestroyInsert]
  rw [sortedByCounter, List.pairwise_append]
  refine ⟨List.Pairwise.sublist (List.take_sublist _ q) hq, ?_, ?_⟩
  · rw [List.pairwise_cons]
    refine ⟨?_, List.Pairwise.sublist (List.drop_sublist _ q) hq⟩
    intro b hb
    obtain ⟨j, hj, rfl⟩ := List.mem_iff_getElem.mp hb
    rw [List.getElem_drop]
    have hlen : bsIndex (binarySearchByKey q c) + j < q.length := by
      rw [List.length_drop] at hj
      omega
    exact haft _ hlen (by omega)
  · intro a ha b hb
    obtain ⟨j, hj, rfl⟩ := List.mem_iff_getElem.mp ha
    rw [List.getElem_take]
    have hjlt : j < bsIndex (binarySearchByKey q c) := by
      rw [List.length_take] at hj
      omega
    have hjq : j < q.length := by omega
    have hja : (q.get ⟨j, hjq⟩).1 ≤ c := hbef j hjq hjlt
    rcases List.mem_cons.mp hb with rfl | hb2
    · exact hja
    · obtain ⟨k, hk, rfl⟩ := List.mem_iff_getElem.mp hb2
      rw [List.getElem_drop]
      have hklen : bsIndex (binarySearchByKey q c) + k < q.length := by
        rw [List.length_drop] at hk
        omega
      exact le_trans hja (haft _ hklen (by omega))

theorem foldlInsert_sorted (ops : List (Nat × ResourceToDestroy)) :
    ∀ q, sortedByCounter q →
      sortedByCounter (ops.foldl (fun acc e => scheduleDestroyInsert acc e.1 e.2) q) := by
  induction ops with
  | nil => intro q hq; exact hq
  | cons e rest ih =>
    intro q hq
    exact ih _ (scheduleDestroyInsert_sorted q hq e.1 e.2)

theorem queueOf_sorted (ops : List (Nat × ResourceToDestroy)) :
    sortedByCounter (queueOf ops) :=
  foldlInsert_sorted ops [] (List.Pairwise.nil)

theorem destroyResourcesLoop_append (C : Nat) :
    ∀ q : List (Nat × ResourceToDestroy),
      (destroyResourcesLoop q C).1 ++ (destroyResourcesLoop q C).2 = q := by
  intro q
  induction q with
  | nil => simp [destroyResourcesLoop]
  | cons e rest ih =>
    by_cases h : e.1 ≤ C <;> simp [destroyResourcesLoop, h, ih]

theorem destroyResourcesLoop_sorted (C : Nat) :
    ∀ q : List (Nat × ResourceToDestroy), sortedByCounter q →
      (destroyResourcesLoop q C).1 = q.filter (fun e => decide (e.1 ≤ C)) ∧
      (destroyResourcesLoop q C).2 = q.filter (fun e => decide (C < e.1)) := by
  intro q
  induction q with
  | nil => simp [destroyResourcesLoop]
  | cons e rest ih =>
    intro hq
    rw [sortedByCounter, List.pairwise_cons] at hq
    obtain ⟨he, hrest⟩ := hq
    obtain ⟨ih1, ih2⟩ := ih hrest
    by_cases h : e.1 ≤ C
    · have hnc : ¬ C < e.1 := by omega
      constructor
      · simp [destroyResourcesLoop, h, List.filter_cons, ih1]
      · simp [destroyResourcesLoop, h, hnc, List.filter_cons, ih2]
    · constructor
      · simp only [destroyResourcesLoop, if_neg h]
        symm
        rw [List.filter_eq_nil_iff]
        intro a ha
        rcases List.mem_cons.mp ha with rfl | ha2
        · simpa using h
        · have := he a ha2
          simp only [decide_eq_true_eq]
          omega
      · simp only [destroyResourcesLoop, if_neg h]
        symm
        rw [List.filter_eq_self]
        intro a ha
        rcases List.mem_cons.mp ha with rfl | ha2
        · simp only [decide_eq_true_eq]
          omega
        · have := he a ha2
          simp only [decide_eq_true_eq]
          omega

/-- C1: for every sequence of `scheduleDestroy(c, r)` calls building the
pending queue from empty, a reap at GPU-completed value `C` destroys
exactly the entries whose required counter is at most `C` — the destroyed
sequence equals the queue filtered to those entries, so each is destroyed
exactly once — in non-decreasing required-counter order; exactly the
entries with required counter above `C` remain queued, and no entry is
lost.  The last conjunct states the same at the `destroy_resources`
level, with the destruction log extended by exactly the eligible
entries. -/
theorem reap_destroys_exactly_eligible (ops : List (Nat × ResourceToDestroy)) (C : Nat)
    (t : Nat) (log : List ResourceToDestroy) :
    (destroyResourcesLoop (queueOf ops) C).1 =
      (queueOf ops).filter (fun e => decide (e.1 ≤ C)) ∧
    sortedByCounter (destroyResourcesLoop (queueOf ops) C).1 ∧
    (destroyResourcesLoop (queueOf ops) C).2 =
      (queueOf ops).filter (fun e => decide (C < e.1)) ∧
    (destroyResourcesLoop (queueOf ops) C).1 ++ (destroyResourcesLoop (queueOf ops) C).2 =
      queueOf ops ∧
    destroy_resources (DeviceState.mk t (queueOf ops) log) C =
      DeviceState.mk t ((queueOf ops).filter (fun e => decide (C < e.1)))
        (log ++ ((queueOf ops).filter (fun e => decide (e.1 ≤ C))).map Prod.snd) := by
  have hsorted := queueOf_sorted ops
  obtain ⟨h1, h2⟩ := destroyResourcesLoop_sorted C (queueOf ops) hsorted
  refine ⟨h1, ?_, h2, destroyResourcesLoop_append C (queueOf ops), ?_⟩
  · rw [h1]
    exact List.Pairwise.filter _ hsorted
  · rw [destroy_resources]
    simp [h1, h2]

/-- C2: the pending-destruction queue stays sorted ascending by required
counter under both operations — `scheduleDestroy`'s binary-search
insertion preserves sortedness, and a reap leaves a sorted remainder —
and a reap at completed value `C` destroys only entries whose required
counter has been reached (`≤ C`), in non-decreasing counter order. -/
theorem pending_queue_sorted_invariant (q : List (Nat × ResourceToDestroy))
    (hq : sortedByCounter q) (c : Nat) (r : ResourceToDestroy) (C : Nat) :
    sortedByCounter (scheduleDestroyInsert q c r) ∧
    sortedByCounter (destroyResourcesLoop q C).2 ∧
    sortedByCounter (destroyResourcesLoop q C).1 ∧
    ∀ e ∈ (destroyResourcesLoop q C).1, e.1 ≤ C := by
  obtain ⟨h1, h2⟩ := destroyResourcesLoop_sorted C q hq
  refine ⟨scheduleDestroyInsert_sorted q hq c r, ?_, ?_, ?_⟩
  · rw [h2]
    exact List.Pairwise.filter _ hq
  · rw [h1]
    exact List.Pairwise.filter _ hq
  · intro e he
    rw [h1] at he
    have := (List.mem_filter.mp he).2
    simpa using this

/-- C2 witness: the invariant instantiated on the concrete sorted queue
[(0, Fence 1), (2, Fence 2)] with an insert at counter 1 and a reap at
completed value 1. -/
theorem pending_queue_sorted_invariant_witness :
    sortedByCounter (scheduleDestroyInsert
      [(0, ResourceToDestroy.Fence 1), (2, ResourceToDestroy.Fence 2)] 1
      (ResourceToDestroy.Fence 3)) ∧
    sortedByCounter (destroyResourcesLoop
      [(0, ResourceToDestroy.Fence 1), (2, ResourceToDestroy.Fence 2)] 1).2 ∧
    sortedByCounter (destroyResourcesLoop
      [(0, ResourceToDestroy.Fence 1), (2, ResourceToDestroy.Fence 2)] 1).1 ∧
    ∀ e ∈ (destroyResourcesLoop
      [(0, ResourceToDestroy.Fence 1), (2, ResourceToDestroy.Fence 2)] 1).1, e.1 ≤ 1 :=
  pending_queue_sorted_invariant
    [(0, ResourceToDestroy.Fence 1), (2, ResourceToDestroy.Fence 2)]
    (by decide) 1 (ResourceToDestroy.Fence 3) 1

/-- C7: dropping a `Buffer` never destroys it synchronously: for every
device state (and either build mode) the drop succeeds, the destruction
log and the timeline counter are untouched, and the pending queue becomes
the old queue with the entry
`(current timeline counter, Buffer(handle, allocation))` inserted — the
new queue is a permutation of that entry pushed onto the old queue, and
the entry is in it. -/
theorem buffer_drop_is_deferred (b : Buffer) (debug_assertions : Bool) (d : DeviceState) :
    Buffer.drop b debug_assertions d = some
      { d with resources_to_destroy :=
          (scheduleDestroyInsert d.resources_to_destroy d.timeline_counter
            (ResourceToDestroy.Buffer b.buffer b.allocation)) } ∧
    (d.timeline_counter, ResourceToDestroy.Buffer b.buffer b.allocation) ∈
      scheduleDestroyInsert d.resources_to_destroy d.timeline_counter
        (ResourceToDestroy.Buffer b.buffer b.allocation) ∧
    (scheduleDestroyInsert d.resources_to_destroy d.timeline_counter
        (ResourceToDestroy.Buffer b.buffer b.allocation)).Perm
      ((d.timeline_counter, ResourceToDestroy.Buffer b.buffer b.allocation) ::
        d.resources_to_destroy) := by
  refine ⟨?_, ?_, ?_⟩
  · rw [Buffer.drop, schedule_destroy_resource]
    simp
  · rw [scheduleDestroyInsert]
    exact List.mem_append_right _ (List.mem_cons_self _ _)
  · rw [scheduleDestroyInsert]
    have h1 := @List.perm_middle _
      (d.timeline_counter, ResourceToDestroy.Buffer b.buffer b.allocation)
      (List.take (bsIndex (binarySearchByKey d.resources_to_destroy d.timeline_counter))
        d.resources_to_destroy)
      (List.drop (bsIndex (binarySearchByKey d.resources_to_destroy d.timeline_counter))
        d.resources_to_destroy)
    rwa [List.take_append_drop] at h1

/-- C8 counterexample: in a build without debug assertions (a release
build), calling `schedule_destroy_resource` with required counter 5 while
the reserved counter is 0 does not abort: the entry is silently inserted
into the queue. -/
theorem schedule_destroy_release_inserts_silently :
    schedule_destroy_resource false 0 5 (ResourceToDestroy.Fence 1) [] =
      some [(5, ResourceToDestroy.Fence 1)] := by
  decide

/-- C8 amended: the precondition `requiredCounter ≤ reservedCounter()` is
checked by `debug_assert!`: with debug assertions enabled a violating
call aborts before inserting anything, while in a release build the check
is compiled out and the entry is inserted despite the violation. -/
theorem schedule_destroy_assert_debug_only (cur c : Nat) (r : ResourceToDestroy)
    (q : List (Nat × ResourceToDestroy)) (h : cur < c) :
    schedule_destroy_resource true cur c r q = none ∧
    schedule_destroy_resource false cur c r q = some (scheduleDestroyInsert q c r) := by
  constructor
  · rw [schedule_destroy_resource]
    simp
    omega
  · rw [schedule_destroy_resource]
    simp

/-- C8 witness: the amended statement at reserved counter 0, required
counter 5, on the empty queue. -/
theorem schedule_destroy_assert_debug_only_witness :
    schedule_destroy_resource true 0 5 (ResourceToDestroy.Fence 1) [] = none ∧
    schedule_destroy_resource false 0 5 (ResourceToDestroy.Fence 1) [] =
      some (scheduleDestroyInsert [] 5 (ResourceToDestroy.Fence 1)) :=
  schedule_destroy_assert_debug_only 0 5 (ResourceToDestroy.Fence 1) [] (by decide)

theorem try_next_frame_fence_render_unsignaled (env : FrameEnv) (s : Sc)
    (h1 : ¬ s.render_finished_fences_signaled.getD s.frame_counter false = true) :
    try_next_frame env s = (RenderResult.NotReady, s) := by
  rw [try_next_frame, if_pos h1]

theorem try_next_frame_fence_present_unsignaled (env : FrameEnv) (s : Sc)
    (h1 : s.render_finished_fences_signaled.getD s.frame_counter false = true)
    (h2 : ¬ s.finished_presenting_signaled.getD s.frame_counter false = true) :
    try_next_frame env s = (RenderResult.NotReady, s) := by
  rw [try_next_frame, if_neg (not_not_intro h1), if_pos h2]

theorem try_next_frame_acquire_notReady (env : FrameEnv) (s : Sc)
    (h1 : s.render_finished_fences_signaled.getD s.frame_counter false = true)
    (h2 : s.finished_presenting_signaled.getD s.frame_counter false = true)
    (hacq : env.acquire = AcquireResult.notReady) :
    try_next_frame env s = (RenderResult.NotReady, s) := by
  rw [try_next_frame, if_neg (not_not_intro h1), if_neg (not_not_intro h2), hacq]

theorem try_next_frame_acquire_outOfDate (env : FrameEnv) (s : Sc)
    (h1 : s.render_finished_fences_signaled.getD s.frame_counter false = true)
    (h2 : s.finished_presenting_signaled.getD s.frame_counter false = true)
    (hacq : env.acquire = AcquireResult.outOfDate) :
    try_next_frame env s = (RenderResult.OutOfDate, s) := by
  rw [try_next_frame, if_neg (not_not_intro h1), if_neg (not_not_intro h2), hacq]

theorem try_next_frame_success_fst (env : FrameEnv) (s : Sc) (image_index : Nat)
    (sub : Bool)
    (h1 : s.render_finished_fences_signaled.getD s.frame_counter false = true)
    (h2 : s.finished_presenting_signaled.getD s.frame_counter false = true)
    (hacq : env.acquire = AcquireResult.success image_index sub) :
    (try_next_frame env s).1 = (match env.present with
      | PresentResult.outOfDate => RenderResult.OutOfDate
      | PresentResult.success present_suboptimal =>
        if sub || present_suboptimal then RenderResult.Suboptimal
        else RenderResult.Success) := by
  rw [try_next_frame, if_neg (not_not_intro h1), if_neg (not_not_intro h2), hacq]
  cases hp : env.present with
  | outOfDate => simp [hp]
  | success p => cases hb : (sub || p) <;> simp [hp, hb]

theorem try_next_frame_success_frame_counter (env : FrameEnv) (s : Sc)
    (image_index : Nat) (sub : Bool)
    (h1 : s.render_finished_fences_signaled.getD s.frame_counter false = true)
    (h2 : s.finished_presenting_signaled.getD s.frame_counter false = true)
    (hacq : env.acquire = AcquireResult.success image_index sub) :
    (try_next_frame env s).2.frame_counter =
      (s.frame_counter + 1) % FRAMES_IN_FLIGHT_COUNT := by
  rw [try_next_frame, if_neg (not_not_intro h1), if_neg (not_not_intro h2), hacq]
  cases hp : env.present with
  | outOfDate => simp [hp]
  | success p => cases hb : (sub || p) <;> simp [hp, hb]

theorem try_next_frame_success_submissions (env : FrameEnv) (s : Sc)
    (image_index : Nat) (sub : Bool)
    (h1 : s.render_finished_fences_signaled.getD s.frame_counter false = true)
    (h2 : s.finished_presenting_signaled.getD s.frame_counter false = true)
    (hacq : env.acquire = AcquireResult.success image_index sub) :
    (try_next_frame env s).2.submissions = s.submissions ++
      [{ wait_semaphore_infos :=
           (match env.render.wait_sempahore_info with
            | some user_wait_info =>
              [{ semaphore := s.aquired_image.getD s.frame_counter 0, value := 0,
                 stage_mask := COLOR_ATTACHMENT_OUTPUT }, user_wait_info]
            | none =>
              [{ semaphore := s.aquired_image.getD s.frame_counter 0, value := 0,
                 stage_mask := COLOR_ATTACHMENT_OUTPUT }]),
         command_buffer := s.command_buffers.getD s.frame_counter 0,
         signal_semaphore_infos :=
           (match env.render.signal_sempahore_info with
            | some user_signal_info =>
              [{ semaphore := s.render_finished.getD s.frame_counter 0, value := 0,
                 stage_mask := ALL_GRAPHICS },
               { semaphore := s.timeline_semaphore, value := s.timeline_counter + 1,
                 stage_mask := 0 }, user_signal_info]
            | none =>
              [{ semaphore := s.render_finished.getD s.frame_counter 0, value := 0,
                 stage_mask := ALL_GRAPHICS },
               { semaphore := s.timeline_semaphore, value := s.timeline_counter + 1,
                 stage_mask := 0 }]),
         fence := s.render_finished_fences.getD s.frame_counter 0 }] := by
  rw [try_next_frame, if_neg (not_not_intro h1), if_neg (not_not_intro h2), hacq]
  cases hw : env.render.wait_sempahore_info <;>
    cases hs : env.render.signal_sempahore_info <;>
    cases hp : env.present <;>
    simp [hw, hs, hp, apply_ite]

/-- C3 counterexample: `cexBufferNoFlag` is created with usage flags 0, so
without `SHADER_DEVICE_ADDRESS`; calling the source device-address
accessor on it returns the driver's value 2989 as a plain `ok` result —
no error is reported — whereas the accessor the specification describes
reports the missing-flag error on the same input. -/
theorem device_address_returns_value_without_flag :
    0 &&& SHADER_DEVICE_ADDRESS = 0 ∧
    Buffer.device_address_outcome cexBufferNoFlag cexAddressTable = Except.ok 2989 ∧
    device_address_spec 0 cexBufferNoFlag cexAddressTable =
      Except.error DeviceAddressError.missingShaderDeviceAddressUsage := by
  refine ⟨by decide, rfl, ?_⟩
  rw [device_address_spec, if_neg (by decide)]

/-- C3 amended: `Buffer::device_address` is an `unsafe fn` whose
address-exposing-flag requirement is a documented safety precondition,
not a checked one: it performs no runtime check and never reports an
error — for every creation request, including one whose usage flags lack
`SHADER_DEVICE_ADDRESS`, it returns the driver's answer for the stored
handle as a plain value. -/
theorem device_address_unchecked (env : GpuEnv) (name : String)
    (location : MemoryLocation) (size usage : Nat) (dedicated_allocation : Bool)
    (get_buffer_device_address : Nat → Nat) :
    Buffer.device_address_outcome
        (Buffer.new env name location size usage dedicated_allocation)
        get_buffer_device_address =
      Except.ok (get_buffer_device_address
        (Buffer.new env name location size usage dedicated_allocation).buffer) := rfl

/-- C4 counterexample: under surface bounds 1..100, requesting
`resize(200, 50)` twice from the fresh swapchain performs two real
recreations, not one: the first call stores the clamped width 100, so the
second call's request 200 still compares as changed, is not a no-op, and
recreates again (the swapchain handle changes a second time). -/
theorem resize_twice_recreates_out_of_bounds :
    resize cexCaps [20, 21, 22] freshSc 200 50 = some s1resized ∧
    s1resized.width = 100 ∧
    resize cexCaps [20, 21, 22] s1resized 200 50 ≠ some s1resized ∧
    ((resize cexCaps [20, 21, 22] s1resized 200 50).map Sc.swapchain).getD 0 ≠
      s1resized.swapchain := by
  decide

/-- C4 amended: `resize(w, h)` called twice with identical values performs
only one real recreation provided the request is nonzero and lies within
the surface-reported bounds (so that clamping leaves it unchanged): the
second call then compares the request as unchanged and returns before any
recreation.  When clamping alters the request, each call recreates. -/
theorem resize_twice_noop_within_bounds (caps : SurfaceCapabilities)
    (new_images : List Nat) (s s1 : Sc) (width height : Nat)
    (hw0 : width ≠ 0) (hh0 : height ≠ 0)
    (hwlo : caps.min_image_extent_width ≤ width)
    (hwhi : width ≤ caps.max_image_extent_width)
    (hhlo : caps.min_image_extent_height ≤ height)
    (hhhi : height ≤ caps.max_image_extent_height)
    (hfirst : resize caps new_images s width height = some s1) :
    resize caps new_images s1 width height = some s1 := by
  rw [resize] at hfirst
  by_cases hearly : width = 0 ∨ height = 0 ∨ (width = s.width ∧ height = s.height)
  · rw [if_pos hearly] at hfirst
    have hs : s = s1 := by injection hfirst
    subst hs
    rw [resize, if_pos hearly]
  · rw [if_neg hearly] at hfirst
    have hcw : clampU32 width caps.min_image_extent_width caps.max_image_extent_width
        = some width := by
      rw [clampU32, if_neg (by omega), if_neg (by omega), if_neg (by omega)]
    have hch : clampU32 height caps.min_image_extent_height caps.max_image_extent_height
        = some height := by
      rw [clampU32, if_neg (by omega), if_neg (by omega), if_neg (by omega)]
    rw [hcw, hch] at hfirst
    have hs1 := Option.some.inj hfirst
    have hw1 : s1.width = width := by rw [← hs1]
    have hh1 : s1.height = height := by rw [← hs1]
    rw [resize, if_pos (Or.inr (Or.inr ⟨hw1.symm, hh1.symm⟩))]

/-- C4 witness: the amended statement at the in-bounds request 50×60 on
the fresh swapchain — after a first resize, the second identical call is
a no-op. -/
theorem resize_twice_noop_within_bounds_witness :
    resize cexCaps [20, 21, 22] s1within 50 60 = some s1within :=
  resize_twice_noop_within_bounds cexCaps [20, 21, 22] freshSc s1within 50 60
    (by decide) (by decide) (by decide) (by decide) (by decide) (by decide) (by decide)

/-- C5: whenever `try_next_frame` returns `NotReady` — the current slot's
submission fence or presentation fence is unsignaled, or no image is
acquirable with zero timeout — it makes no state change: the resulting
state (slot index, fences, logs, everything) is exactly the input state,
and a repeated call under the same external conditions returns `NotReady`
again. -/
theorem notReady_no_state_change (env : FrameEnv) (s : Sc)
    (h : (try_next_frame env s).1 = RenderResult.NotReady) :
    (try_next_frame env s).2 = s ∧
    (try_next_frame env (try_next_frame env s).2).1 = RenderResult.NotReady := by
  have hpair : try_next_frame env s = (RenderResult.NotReady, s) := by
    by_cases h1 : s.render_finished_fences_signaled.getD s.frame_counter false = true
    · by_cases h2 : s.finished_presenting_signaled.getD s.frame_counter false = true
      · cases hacq : env.acquire with
        | notReady => exact try_next_frame_acquire_notReady env s h1 h2 hacq
        | outOfDate =>
          rw [try_next_frame_acquire_outOfDate env s h1 h2 hacq] at h
          simp at h
        | success image_index sub =>
          rw [try_next_frame_success_fst env s image_index sub h1 h2 hacq] at h
          cases hp : env.present with
          | outOfDate => rw [hp] at h; simp at h
          | success p =>
            rw [hp] at h
            cases hb : (sub || p) <;> simp [hb] at h
      · exact try_next_frame_fence_present_unsignaled env s h1 h2
    · exact try_next_frame_fence_render_unsignaled env s h1
  exact ⟨by rw [hpair], by simp [hpair]⟩

/-- C5 witness: the statement at the fresh swapchain under an environment
in which no image is acquirable. -/
theorem notReady_no_state_change_witness :
    (try_next_frame notReadyEnv freshSc).2 = freshSc ∧
    (try_next_frame notReadyEnv (try_next_frame notReadyEnv freshSc).2).1 =
      RenderResult.NotReady :=
  notReady_no_state_change notReadyEnv freshSc (by decide)

/-- C6: the round-robin slot index advances modulo
`FRAMES_IN_FLIGHT_COUNT = 2` after every successful acquire regardless of
the rest of the call (first conjunct); and in the concrete all-ready
scenario starting from a fresh swapchain, four consecutive
`try_next_frame` calls hand the render callback the slot indices
0, 1, 0, 1, the four submissions signal the timeline semaphore with the
values 1, 2, 3, 4 (each call increasing the signaled value by exactly 1),
and every call returns `Success`. -/
theorem slot_round_robin_and_timeline_increment :
    (∀ (env : FrameEnv) (s : Sc) (image_index : Nat) (sub : Bool),
      s.render_finished_fences_signaled.getD s.frame_counter false = true →
      s.finished_presenting_signaled.getD s.frame_counter false = true →
      env.acquire = AcquireResult.success image_index sub →
      (try_next_frame env s).2.frame_counter =
        (s.frame_counter + 1) % FRAMES_IN_FLIGHT_COUNT) ∧
    (scState 4).callback_slots = [0, 1, 0, 1] ∧
    (scState 4).submissions.map
        (fun sub => (sub.signal_semaphore_infos.getD 1
          { semaphore := 0, value := 0, stage_mask := 0 }).value) = [1, 2, 3, 4] ∧
    ∀ n, n < 4 → (try_next_frame readyEnv (scState n)).1 = RenderResult.Success := by
  refine ⟨?_, by decide, by decide, by decide⟩
  intro env s image_index sub h1 h2 hacq
  exact try_next_frame_success_frame_counter env s image_index sub h1 h2 hacq

/-- C6 witness: the slot-advance conjunct at the fresh swapchain in the
all-ready environment. -/
theorem slot_round_robin_and_timeline_increment_witness :
    (try_next_frame readyEnv freshSc).2.frame_counter =
      (freshSc.frame_counter + 1) % FRAMES_IN_FLIGHT_COUNT :=
  slot_round_robin_and_timeline_increment.1 readyEnv freshSc 0 false
    (by decide) (by decide) rfl

/-- C9: under the no-op guard (nonzero request differing from the stored
extent) and a well-formed capability range, `resize` succeeds and stores
the request clamped to the surface bounds: above the maximum it stores
exactly the maximum, below the minimum exactly the minimum, and inside
the bounds the request itself — per dimension. -/
theorem resize_clamps_to_surface_bounds (caps : SurfaceCapabilities)
    (new_images : List Nat) (s : Sc) (width height : Nat)
    (hw0 : width ≠ 0) (hh0 : height ≠ 0)
    (hchanged : ¬ (width = s.width ∧ height = s.height))
    (hwb : caps.min_image_extent_width ≤ caps.max_image_extent_width)
    (hhb : caps.min_image_extent_height ≤ caps.max_image_extent_height) :
    ∃ s1, resize caps new_images s width height = some s1 ∧
      (caps.max_image_extent_width < width →
        s1.width = caps.max_image_extent_width) ∧
      (width < caps.min_image_extent_width →
        s1.width = caps.min_image_extent_width) ∧
      (caps.min_image_extent_width ≤ width → width ≤ caps.max_image_extent_width →
        s1.width = width) ∧
      (caps.max_image_extent_height < height →
        s1.height = caps.max_image_extent_height) ∧
      (height < caps.min_image_extent_height →
        s1.height = caps.min_image_extent_height) ∧
      (caps.min_image_extent_height ≤ height →
        height ≤ caps.max_image_extent_height → s1.height = height) := by
  have hne : ¬ (width = 0 ∨ height = 0 ∨ (width = s.width ∧ height = s.height)) := by
    push_neg
    exact ⟨hw0, hh0, fun hw hh => hchanged ⟨hw, hh⟩⟩
  have hcw : clampU32 width caps.min_image_extent_width caps.max_image_extent_width =
      some (if width < caps.min_image_extent_width then caps.min_image_extent_width
        else if caps.max_image_extent_width < width then caps.max_image_extent_width
        else width) := by
    rw [clampU32, if_neg (by omega)]
  have hch : clampU32 height caps.min_image_extent_height caps.max_image_extent_height =
      some (if height < caps.min_image_extent_height then caps.min_image_extent_height
        else if caps.max_image_extent_height < height then caps.max_image_extent_height
        else height) := by
    rw [clampU32, if_neg (by omega)]
  rw [resize, if_neg hne, hcw, hch]
  refine ⟨_, rfl, ?_, ?_, ?_, ?_, ?_, ?_⟩
  · intro h
    dsimp only
    split_ifs <;> omega
  · intro h
    dsimp only
    split_ifs <;> omega
  · intro hlo hhi
    dsimp only
    split_ifs <;> omega
  · intro h
    dsimp only
    split_ifs <;> omega
  · intro h
    dsimp only
    split_ifs <;> omega
  · intro hlo hhi
    dsimp only
    split_ifs <;> omega

/-- C9 witness: the clamping statement at the request 200×50 (width above
the maximum 100, height inside the bounds) on the fresh swapchain. -/
theorem resize_clamps_to_surface_bounds_witness :
    ∃ s1, resize cexCaps [20, 21, 22] freshSc 200 50 = some s1 ∧
      (cexCaps.max_image_extent_width < 200 →
        s1.width = cexCaps.max_image_extent_width) ∧
      (200 < cexCaps.min_image_extent_width →
        s1.width = cexCaps.min_image_extent_width) ∧
      (cexCaps.min_image_extent_width ≤ 200 → 200 ≤ cexCaps.max_image_extent_width →
        s1.width = 200) ∧
      (cexCaps.max_image_extent_height < 50 →
        s1.height = cexCaps.max_image_extent_height) ∧
      (50 < cexCaps.min_image_extent_height →
        s1.height = cexCaps.min_image_extent_height) ∧
      (cexCaps.min_image_extent_height ≤ 50 → 50 ≤ cexCaps.max_image_extent_height →
        s1.height = 50) :=
  resize_clamps_to_surface_bounds cexCaps [20, 21, 22] freshSc 200 50
    (by decide) (by decide) (by decide) (by decide) (by decide)

/-- C10: the render callback's escape hatch is one optional extra wait and
one optional extra signal (`RenderSync` holds an `Option` each), so every
submission `try_next_frame` enqueues has a wait set of at most two
entries (image-acquired plus the optional caller wait) and a signal set
of at most three (render-finished, the timeline signal, plus the optional
caller signal): any submission in the post-state log was either already
in the pre-state log or obeys those bounds. -/
theorem submission_sync_bounds (env : FrameEnv) (s : Sc) (sub : SubmitInfo2)
    (hmem : sub ∈ (try_next_frame env s).2.submissions) :
    sub ∈ s.submissions ∨
    (sub.wait_semaphore_infos.length ≤ 2 ∧ sub.signal_semaphore_infos.length ≤ 3) := by
  by_cases h1 : s.render_finished_fences_signaled.getD s.frame_counter false = true
  · by_cases h2 : s.finished_presenting_signaled.getD s.frame_counter false = true
    · cases hacq : env.acquire with
      | notReady =>
        rw [try_next_frame_acquire_notReady env s h1 h2 hacq] at hmem
        exact Or.inl hmem
      | outOfDate =>
        rw [try_next_frame_acquire_outOfDate env s h1 h2 hacq] at hmem
        exact Or.inl hmem
      | success image_index sb =>
        rw [try_next_frame_success_submissions env s image_index sb h1 h2 hacq] at hmem
        rcases List.mem_append.mp hmem with hm | hm
        · exact Or.inl hm
        · right
          have heq := List.mem_singleton.mp hm
          subst heq
          cases env.render.wait_sempahore_info <;>
            cases env.render.signal_sempahore_info <;> simp
    · rw [try_next_frame_fence_present_unsignaled env s h1 h2] at hmem
      exact Or.inl hmem
  · rw [try_next_frame_fence_render_unsignaled env s h1] at hmem
    exact Or.inl hmem

/-- C10 witness: the bound at the submission recorded by one all-ready
call on the fresh swapchain. -/
theorem submission_sync_bounds_witness :
    scenarioSubmission ∈ freshSc.submissions ∨
    (scenarioSubmission.wait_semaphore_infos.length ≤ 2 ∧
      scenarioSubmission.signal_semaphore_infos.length ≤ 3) :=
  submission_sync_bounds readyEnv freshSc scenarioSubmission (by decide)

end NonEuclidean
